import Mathlib

/-!
Verification of the NEST `VPManager` (src/nestkernel/vp_manager.cpp).

The manager owns the per-process thread count `n_threads_` and derives the
virtual-process count from it and the MPI process count.  The embedding below
translates the functions of `vp_manager.cpp` into pure Lean functions:

* collaborator state queried by the manager (process count, node-manager size,
  delay extrema, simulation flag, model defaults, structural plasticity,
  the `OMP_NUM_THREADS` environment hint) is gathered in `KernelState`;
* the mutable manager state (`force_singlethreading_`, `n_threads_`) is
  `VPManager`;
* a `set_status` dictionary is a pair of optional requested values;
* C++ exceptions become an `error` field of the returned outcome (in the
  source no mutation happens before any `throw`, so the outcome carries the
  unchanged manager state alongside the error);
* `LOG` calls become a returned list of message strings;
* the `assert` in `set_num_threads` becomes an `Option` result
  (`none` = assertion failure).
-/

set_option maxHeartbeats 1000000

namespace NestVP

/-- State of the external collaborators read by `VPManager`:
`mpi_manager.get_num_processes()`, `node_manager.size()`,
`connection_manager.get_user_set_delay_extrema()`,
`simulation_manager.has_been_simulated()`,
`model_manager.are_model_defaults_modified()`,
`sp_manager.is_structural_plasticity_enabled()`, and the value that
`getenv("OMP_NUM_THREADS")` + `atoi` produce (0 when unset). -/
structure KernelState where
  num_processes : Nat
  node_manager_size : Nat
  user_set_delay_extrema : Bool
  has_been_simulated : Bool
  model_defaults_modified : Bool
  structural_plasticity_enabled : Bool
  omp_num_threads : Nat
deriving DecidableEq, Repr

/-- The manager's own fields: `force_singlethreading_` (set at construction)
and `n_threads_` (the constructor initializes it to 1). -/
structure VPManager where
  force_singlethreading : Bool
  n_threads : Nat
deriving DecidableEq, Repr

/-- `VPManager::VPManager()`: `n_threads_( 1 )`; `force_singlethreading_`
comes from the build configuration (`_OPENMP`). -/
def VPManager.construct (force : Bool) : VPManager :=
  { force_singlethreading := force, n_threads := 1 }

/-- The dictionary passed to `set_status` / filled by `get_status`, restricted
to the two names the manager touches: `names::local_num_threads` and
`names::total_num_virtual_procs`.  `updateValue` returns whether the entry is
present and overwrites the local variable with it. -/
structure DictionaryDatum where
  local_num_threads : Option Nat
  total_num_virtual_procs : Option Nat
deriving DecidableEq, Repr

/-- The exceptions the translated code can raise.  `badProperty` is the
`BadProperty` thrown for an incompatible `total_num_virtual_procs`
(the spec's `IncompatibleConfiguration`); `kernelException` is the
`KernelException` thrown when guard conditions fail (the spec's
`KernelLocked`); `assertionFailure` marks the `assert` in
`set_num_threads` firing. -/
inductive NestError where
  | badProperty (msg : String)
  | kernelException (msg : String)
  | assertionFailure
deriving DecidableEq, Repr

/-- `VPManager::get_num_threads()` (header accessor): returns `n_threads_`. -/
def get_num_threads (vm : VPManager) : Nat :=
  vm.n_threads

/-- Modelled from the spec: `VPManager::get_num_virtual_processes()` lives in
the header `vp_manager.h`, which is not part of the sources here.  Per the
spec's data model the virtual-process count is "derived, `thread_count ×
process_count`, never stored independently of thread_count; always
recomputed". -/
def get_num_virtual_processes (vm : VPManager) (k : KernelState) : Nat :=
  get_num_threads vm * k.num_processes

/-- `VPManager::get_OMP_NUM_THREADS()`: `atoi(getenv("OMP_NUM_THREADS"))`,
or 0 when the variable is unset.  The environment read is folded into
`KernelState.omp_num_threads`. -/
def get_OMP_NUM_THREADS (k : KernelState) : Nat :=
  k.omp_num_threads

/-- `VPManager::set_num_threads(n_threads)`: asserts
`not (structural plasticity enabled ∧ n_threads > 1)` and stores the value;
`none` models the assertion firing (the `omp_set_num_threads` call is the
external runtime resize and has no state here). -/
def set_num_threads (k : KernelState) (vm : VPManager) (n_threads : Nat) :
    Option VPManager :=
  if k.structural_plasticity_enabled ∧ 1 < n_threads then
    none
  else
    some { vm with n_threads := n_threads }

/-- The message logged when the `OMP_NUM_THREADS` hint is ignored, shared by
`initialize` (M_INFO) and `set_status` (M_WARNING). -/
def omp_ignored_msg : String :=
  "OMP_NUM_THREADS is set in your environment, but NEST ignores it.\nFor details, see the Guide to parallel computing in the NEST Documentation."

/-- `VPManager::initialize(reset_kernel)`: returns unchanged unless a kernel
reset is requested; on reset it logs the `OMP_NUM_THREADS` note when the hint
exceeds 1 and commits thread count 1 via `set_num_threads`
(`omp_set_dynamic(false)` is an external runtime command).  Returns the new
manager state and the emitted log messages. -/
def initializeManager (reset_kernel : Bool) (k : KernelState) (vm : VPManager) :
    VPManager × List String :=
  if ¬ reset_kernel then
    (vm, [])
  else
    let logs := if 1 < get_OMP_NUM_THREADS k then [omp_ignored_msg] else []
    match set_num_threads k vm 1 with
    | some vm2 => (vm2, logs)
    | none => (vm, logs)

/-- Guard reason pushed when `kernel().node_manager.size() > 0`. -/
def nodes_exist_msg : String := "Nodes exist"

/-- Guard reason pushed when delay extrema have been set by the user. -/
def delay_extrema_msg : String := "Delay extrema have been set"

/-- Guard reason pushed when the network has been simulated. -/
def simulated_msg : String := "Network has been simulated"

/-- Guard reason pushed when model defaults were modified. -/
def model_defaults_msg : String := "Model defaults were modified"

/-- Guard reason pushed when structural plasticity is enabled and more than
one thread is requested. -/
def sp_conflict_msg : String :=
  "Structural plasticity enabled: multithreading cannot be enabled"

/-- Guard reason pushed when the installation lacks multithreading support
and more than one thread is requested. -/
def no_threads_msg : String :=
  "This installation of NEST does not support multiple threads"

/-- The `errors` vector built in `VPManager::set_status` (lines 132–156):
every failing guard pushes its reason, in source order, none short-circuits
the others. -/
def guard_errors (k : KernelState) (vm : VPManager) (n_threads : Nat) :
    List String :=
  (if 0 < k.node_manager_size then [nodes_exist_msg] else []) ++
  (if k.user_set_delay_extrema then [delay_extrema_msg] else []) ++
  (if k.has_been_simulated then [simulated_msg] else []) ++
  (if k.model_defaults_modified then [model_defaults_msg] else []) ++
  (if k.structural_plasticity_enabled ∧ 1 < n_threads then [sp_conflict_msg] else []) ++
  (if vm.force_singlethreading ∧ 1 < n_threads then [no_threads_msg] else [])

/-- The composite `KernelException` message (lines 160–164): the fixed prefix
followed by `" " + error + "."` for each collected reason. -/
def locked_msg (errors : List String) : String :=
  errors.foldl (fun msg error => msg ++ " " ++ error ++ ".")
    "Number of threads unchanged. Error conditions:"

/-- The `BadProperty` message for an incompatible `total_num_virtual_procs`
(lines 119–122; the two adjacent C++ string literals concatenate without a
space after "threads."). -/
def bad_property_msg : String :=
  "Requested total_num_virtual_procs is incompatible with the number of processes and threads.It must be an integer multiple of num_processes and equal to local_num_threads * num_processes. Value unchanged."

/-- Result of a `set_status` call: the manager state after the call, whether
the runtime resize (`kernel().change_number_of_threads`) was requested, the
log messages emitted, and the exception raised (if any).  In the source no
field is mutated before a `throw`, so on error `vm` is the state from before
the call. -/
structure SetStatusOutcome where
  vm : VPManager
  resized : Bool
  logs : List String
  error : Option NestError
deriving DecidableEq, Repr

/-- The state-relevant projection of an outcome: the manager state, the
resize request and the raised error — everything except the log messages. -/
def outcome_core (o : SetStatusOutcome) : VPManager × Bool × Option NestError :=
  (o.vm, o.resized, o.error)

/-- The warning emitted at lines 168–173 right before the commit: logged when
the `OMP_NUM_THREADS` hint is positive and differs from the new thread
count. -/
def omp_warning_logs (k : KernelState) (n_threads : Nat) : List String :=
  if 0 < get_OMP_NUM_THREADS k ∧ get_OMP_NUM_THREADS k ≠ n_threads then
    [omp_ignored_msg]
  else
    []

/-- Second half of `VPManager::set_status` (lines 126–176), after the
requested values have been reconciled: change detection against the current
values, the guard protocol (throwing the composite `KernelException` when any
guard failed), the `OMP_NUM_THREADS` warning, and the commit.
Modelled from the spec for the one step outside this file:
`kernel().change_number_of_threads(n_threads)` commits via the manager's
`set_num_threads` and propagates the resize to the runtime (spec §4.1 step 6
and the description of `set_num_threads` as "used internally by the public
reconfiguration path"). -/
def set_status_tail (k : KernelState) (vm : VPManager)
    (n_threads n_vps : Nat) : SetStatusOutcome :=
  if n_threads ≠ get_num_threads vm ∨ n_vps ≠ get_num_virtual_processes vm k then
    if guard_errors k vm n_threads ≠ [] then
      { vm := vm, resized := false, logs := [],
        error := some (NestError.kernelException (locked_msg (guard_errors k vm n_threads))) }
    else
      match set_num_threads k vm n_threads with
      | some vm2 =>
        { vm := vm2, resized := true, logs := omp_warning_logs k n_threads,
          error := none }
      | none =>
        { vm := vm, resized := false, logs := omp_warning_logs k n_threads,
          error := some NestError.assertionFailure }
  else
    { vm := vm, resized := false, logs := [], error := none }

/-- The thread count the body of `set_status` works with after lines 102–113
(`n_threads` there): the requested `local_num_threads` when present,
otherwise `total_num_virtual_procs / num_processes` when a virtual-process
count is requested (line 112), otherwise the current thread count. -/
def requested_threads (k : KernelState) (vm : VPManager) (d : DictionaryDatum) :
    Nat :=
  match d.local_num_threads with
  | some t => t
  | none =>
    match d.total_num_virtual_procs with
    | some v => v / k.num_processes
    | none => get_num_threads vm

/-- The virtual-process count `set_status` works with (`n_vps` there): the
requested value when present, otherwise the current derived one. -/
def requested_vps (k : KernelState) (vm : VPManager) (d : DictionaryDatum) :
    Nat :=
  Option.getD d.total_num_virtual_procs (get_num_virtual_processes vm k)

/-- `VPManager::set_status(d)` (lines 99–177): read the requested values
(`requested_threads` is exactly the `n_threads` local after lines 102–113);
when a virtual-process count is requested, validate the decomposition
(`n_threads_conflict or n_procs_conflict`, lines 115–123) and throw
`BadProperty` on conflict; then run the change-detection / guard / commit
tail. -/
def set_status (k : KernelState) (vm : VPManager) (d : DictionaryDatum) :
    SetStatusOutcome :=
  if d.total_num_virtual_procs.isSome then
    if requested_vps k vm d / k.num_processes ≠ requested_threads k vm d ∨
        requested_vps k vm d % k.num_processes ≠ 0 then
      { vm := vm, resized := false, logs := [],
        error := some (NestError.badProperty bad_property_msg) }
    else
      set_status_tail k vm (requested_threads k vm d) (requested_vps k vm d)
  else
    set_status_tail k vm (requested_threads k vm d) (requested_vps k vm d)

/-- `VPManager::get_status(d)` (lines 179–184): writes the current thread
count and the derived virtual-process count into the dictionary; reads no
environment and mutates nothing. -/
def get_status (k : KernelState) (vm : VPManager) : DictionaryDatum :=
  { local_num_threads := some (get_num_threads vm),
    total_num_virtual_procs := some (get_num_virtual_processes vm k) }

/-! ### Helper lemmas -/

theorem data_step_contains (m s e p : String) :
    e.data <:+: (m ++ s ++ e ++ p).data :=
  ⟨m.data ++ s.data, p.data, by simp [String.data_append]⟩

theorem foldl_msg_grows (l : List String) :
    ∀ m : String,
      m.data <+: (l.foldl (fun msg error => msg ++ " " ++ error ++ ".") m).data := by
  induction l with
  | nil => intro m; exact List.prefix_rfl
  | cons a t ih =>
    intro m
    refine List.IsPrefix.trans ?_ (ih (m ++ " " ++ a ++ "."))
    refine ⟨" ".data ++ (a.data ++ ".".data), ?_⟩
    simp [String.data_append]

theorem foldl_msg_mem_data (r : String) (l : List String) :
    ∀ m : String, r ∈ l →
      r.data <:+: (l.foldl (fun msg error => msg ++ " " ++ error ++ ".") m).data := by
  induction l with
  | nil => intro m h; cases h
  | cons a t ih =>
    intro m h
    simp only [List.foldl_cons]
    rcases List.mem_cons.mp h with rfl | ht
    · exact (data_step_contains m " " r ".").trans (foldl_msg_grows t _).isInfix
    · exact ih _ ht

/-- Every collected guard reason appears verbatim inside the composite
`KernelException` message. -/
theorem mem_locked_msg (r : String) (l : List String) (hr : r ∈ l) :
    r.data <:+: (locked_msg l).data :=
  foldl_msg_mem_data r l _ hr

/-- The guard list is empty exactly when all six guard conditions pass. -/
theorem guard_errors_nil_iff (k : KernelState) (vm : VPManager) (n : Nat) :
    guard_errors k vm n = [] ↔
      k.node_manager_size = 0 ∧ k.user_set_delay_extrema = false ∧
      k.has_been_simulated = false ∧ k.model_defaults_modified = false ∧
      ¬(k.structural_plasticity_enabled = true ∧ 1 < n) ∧
      ¬(vm.force_singlethreading = true ∧ 1 < n) := by
  unfold guard_errors
  split_ifs <;> (simp_all; try omega)

theorem guard_errors_nil_no_sp (k : KernelState) (vm : VPManager) (n : Nat)
    (h : guard_errors k vm n = []) :
    ¬(k.structural_plasticity_enabled = true ∧ 1 < n) :=
  ((guard_errors_nil_iff k vm n).mp h).2.2.2.2.1

theorem sp_conflict_mem_guard_errors (k : KernelState) (vm : VPManager) (n : Nat)
    (hsp : k.structural_plasticity_enabled = true) (hn : 1 < n) :
    sp_conflict_msg ∈ guard_errors k vm n := by
  simp [guard_errors, hsp, hn]

/-- Change detection: requesting exactly the current values short-circuits
before the guard protocol. -/
theorem set_status_tail_noop (k : KernelState) (vm : VPManager) :
    set_status_tail k vm (get_num_threads vm) (get_num_virtual_processes vm k) =
      { vm := vm, resized := false, logs := [], error := none } := by
  simp [set_status_tail]

theorem set_status_tail_locked (k : KernelState) (vm : VPManager)
    (n_threads n_vps : Nat)
    (hdiff : n_threads ≠ get_num_threads vm ∨ n_vps ≠ get_num_virtual_processes vm k)
    (hguard : guard_errors k vm n_threads ≠ []) :
    set_status_tail k vm n_threads n_vps =
      { vm := vm, resized := false, logs := [],
        error := some (NestError.kernelException (locked_msg (guard_errors k vm n_threads))) } := by
  unfold set_status_tail
  rw [if_pos hdiff, if_pos hguard]

theorem set_status_tail_commit (k : KernelState) (vm : VPManager)
    (n_threads n_vps : Nat)
    (hdiff : n_threads ≠ get_num_threads vm ∨ n_vps ≠ get_num_virtual_processes vm k)
    (hguard : guard_errors k vm n_threads = []) :
    set_status_tail k vm n_threads n_vps =
      { vm := { vm with n_threads := n_threads }, resized := true,
        logs := omp_warning_logs k n_threads, error := none } := by
  have hsp := guard_errors_nil_no_sp k vm n_threads hguard
  unfold set_status_tail
  rw [if_pos hdiff, if_neg (by simp [hguard])]
  simp [set_num_threads, hsp]

/-- When the requested decomposition is valid, `set_status` reduces to the
change-detection / guard / commit tail at the reconciled values. -/
theorem set_status_eq_tail (k : KernelState) (vm : VPManager) (d : DictionaryDatum)
    (hvalid : ∀ v, d.total_num_virtual_procs = some v →
      v % k.num_processes = 0 ∧ v / k.num_processes = requested_threads k vm d) :
    set_status k vm d =
      set_status_tail k vm (requested_threads k vm d) (requested_vps k vm d) := by
  unfold set_status
  cases hv : d.total_num_virtual_procs with
  | none => rw [if_neg (by simp [hv])]
  | some v =>
    obtain ⟨h1, h2⟩ := hvalid v hv
    have hrv : requested_vps k vm d = v := by simp [requested_vps, hv]
    rw [if_pos (by simp [hv]), if_neg (by simp [hrv, h1, h2])]

theorem set_status_tail_no_bad (k : KernelState) (vm : VPManager)
    (n_threads n_vps : Nat) (msg : String) :
    (set_status_tail k vm n_threads n_vps).error ≠
      some (NestError.badProperty msg) := by
  unfold set_status_tail
  split
  · split
    · simp
    · split <;> simp
  · simp

theorem set_status_tail_no_assert (k : KernelState) (vm : VPManager)
    (n_threads n_vps : Nat) :
    (set_status_tail k vm n_threads n_vps).error ≠
      some NestError.assertionFailure := by
  unfold set_status_tail
  split
  · split
    · simp
    · rename_i hguard
      split
      · simp
      · rename_i heq
        exfalso
        have hsp := guard_errors_nil_no_sp k vm n_threads (not_not.mp hguard)
        unfold set_num_threads at heq
        rw [if_neg hsp] at heq
        cases heq
  · simp

theorem set_status_no_assert (k : KernelState) (vm : VPManager)
    (d : DictionaryDatum) :
    (set_status k vm d).error ≠ some NestError.assertionFailure := by
  unfold set_status
  split
  · split
    · simp
    · exact set_status_tail_no_assert k vm _ _
  · exact set_status_tail_no_assert k vm _ _

theorem set_status_tail_vm_cases (k : KernelState) (vm : VPManager)
    (n_threads n_vps : Nat) :
    (set_status_tail k vm n_threads n_vps).vm = vm ∨
    (set_status_tail k vm n_threads n_vps).vm = { vm with n_threads := n_threads } := by
  unfold set_status_tail
  split
  · split
    · left; rfl
    · split
      · rename_i vm2 heq
        right
        unfold set_num_threads at heq
        split at heq
        · cases heq
        · cases heq; rfl
      · left; rfl
  · left; rfl

theorem set_num_threads_one (k : KernelState) (vm : VPManager) :
    set_num_threads k vm 1 = some { vm with n_threads := 1 } := by
  simp [set_num_threads]

theorem initializeManager_reset (k : KernelState) (vm : VPManager) :
    initializeManager true k vm =
      ({ vm with n_threads := 1 },
        if 1 < get_OMP_NUM_THREADS k then [omp_ignored_msg] else []) := by
  simp [initializeManager, set_num_threads_one]

/-- The warning of lines 168–173 is emitted exactly on the successful-change
path, when the hint is positive and differs from the new thread count. -/
theorem set_status_tail_logs (k : KernelState) (vm : VPManager)
    (n_threads n_vps : Nat) :
    (set_status_tail k vm n_threads n_vps).logs =
      if (n_threads ≠ get_num_threads vm ∨ n_vps ≠ get_num_virtual_processes vm k) ∧
          guard_errors k vm n_threads = [] then
        omp_warning_logs k n_threads
      else
        [] := by
  unfold set_status_tail
  by_cases hdiff : n_threads ≠ get_num_threads vm ∨ n_vps ≠ get_num_virtual_processes vm k
  · rw [if_pos hdiff]
    by_cases hg : guard_errors k vm n_threads ≠ []
    · rw [if_pos hg, if_neg (by tauto)]
    · rw [if_neg hg, if_pos ⟨hdiff, not_not.mp hg⟩]
      cases hsnt : set_num_threads k vm n_threads <;> simp [hsnt]
  · rw [if_neg hdiff, if_neg (by tauto)]

/-- The manager state, resize request and error of `set_status_tail` do not
depend on the `OMP_NUM_THREADS` hint. -/
theorem set_status_tail_hint_core (k : KernelState) (vm : VPManager)
    (x n_threads n_vps : Nat) :
    outcome_core (set_status_tail { k with omp_num_threads := x } vm n_threads n_vps) =
      outcome_core (set_status_tail k vm n_threads n_vps) := by
  have e1 : get_num_virtual_processes vm { k with omp_num_threads := x } =
      get_num_virtual_processes vm k := rfl
  have e2 : guard_errors { k with omp_num_threads := x } vm n_threads =
      guard_errors k vm n_threads := rfl
  have e3 : set_num_threads { k with omp_num_threads := x } vm n_threads =
      set_num_threads k vm n_threads := rfl
  unfold set_status_tail
  rw [e1, e2, e3]
  by_cases hdiff : n_threads ≠ get_num_threads vm ∨ n_vps ≠ get_num_virtual_processes vm k
  · rw [if_pos hdiff, if_pos hdiff]
    by_cases hg : guard_errors k vm n_threads ≠ []
    · rw [if_pos hg, if_pos hg]
    · rw [if_neg hg, if_neg hg]
      cases hsnt : set_num_threads k vm n_threads <;> simp [hsnt, outcome_core]
  · rw [if_neg hdiff, if_neg hdiff]

/-- The manager state, resize request and error of `set_status` do not depend
on the `OMP_NUM_THREADS` hint. -/
theorem set_status_hint_core (k : KernelState) (vm : VPManager)
    (d : DictionaryDatum) (x : Nat) :
    outcome_core (set_status { k with omp_num_threads := x } vm d) =
      outcome_core (set_status k vm d) := by
  have e0 : requested_threads { k with omp_num_threads := x } vm d =
      requested_threads k vm d := rfl
  have e1 : requested_vps { k with omp_num_threads := x } vm d =
      requested_vps k vm d := rfl
  have e2 : ({ k with omp_num_threads := x } : KernelState).num_processes =
      k.num_processes := rfl
  unfold set_status
  rw [e0, e1, e2]
  by_cases hs : d.total_num_virtual_procs.isSome = true
  · rw [if_pos hs, if_pos hs]
    by_cases hc : requested_vps k vm d / k.num_processes ≠ requested_threads k vm d ∨
        requested_vps k vm d % k.num_processes ≠ 0
    · rw [if_pos hc, if_pos hc]
    · rw [if_neg hc, if_neg hc]
      exact set_status_tail_hint_core k vm x _ _
  · rw [if_neg hs, if_neg hs]
    exact set_status_tail_hint_core k vm x _ _

theorem set_status_vm_cases (k : KernelState) (vm : VPManager)
    (d : DictionaryDatum) :
    (set_status k vm d).vm = vm ∨
    (set_status k vm d).vm = { vm with n_threads := requested_threads k vm d } := by
  unfold set_status
  split
  · split
    · left; rfl
    · exact set_status_tail_vm_cases k vm _ _
  · exact set_status_tail_vm_cases k vm _ _

/-! ### Claims -/

/-- C1: in every state the virtual-process count equals
`thread_count * process_count` (it is recomputed from `n_threads_` and the
process count, never stored separately), and `get_status` reports exactly the
current thread count and that product; it is a pure function of the state, so
it has no side effects. -/
theorem vp_invariant_vp_count :
    ∀ (k : KernelState) (vm : VPManager),
      get_num_virtual_processes vm k = get_num_threads vm * k.num_processes ∧
      get_status k vm =
        { local_num_threads := some (get_num_threads vm),
          total_num_virtual_procs := some (get_num_threads vm * k.num_processes) } :=
  fun _ _ => ⟨rfl, rfl⟩

/-- C2: when the requested decomposition is valid, the requested/derived
values differ from the current ones, and at least one guard fails, the call
raises the single `KernelException` (`KernelLocked`) whose message is built
from the list of all failing guards — every failing guard's reason occurs
verbatim inside the message — and the manager state is exactly as before,
with no resize requested. -/
theorem vp_set_status_locked_all_reasons (k : KernelState) (vm : VPManager)
    (d : DictionaryDatum)
    (hvalid : ∀ v, d.total_num_virtual_procs = some v →
      v % k.num_processes = 0 ∧ v / k.num_processes = requested_threads k vm d)
    (hdiff : requested_threads k vm d ≠ get_num_threads vm ∨
      requested_vps k vm d ≠ get_num_virtual_processes vm k)
    (hguard : guard_errors k vm (requested_threads k vm d) ≠ []) :
    (set_status k vm d).error =
      some (NestError.kernelException
        (locked_msg (guard_errors k vm (requested_threads k vm d)))) ∧
    (set_status k vm d).vm = vm ∧
    (set_status k vm d).resized = false ∧
    ∀ r ∈ guard_errors k vm (requested_threads k vm d),
      r.data <:+:
        (locked_msg (guard_errors k vm (requested_threads k vm d))).data := by
  rw [set_status_eq_tail k vm d hvalid,
    set_status_tail_locked k vm _ _ hdiff hguard]
  exact ⟨rfl, rfl, rfl, fun r hr => mem_locked_msg r _ hr⟩

theorem vp_set_status_locked_all_reasons_witness :
    ((2 : Nat) ≠ 1 ∨ (1 : Nat) ≠ 1) ∧
    guard_errors ⟨1, 1, true, false, false, false, 0⟩ ⟨false, 1⟩ 2 ≠ [] ∧
    ((set_status ⟨1, 1, true, false, false, false, 0⟩ ⟨false, 1⟩ ⟨some 2, none⟩).error =
      some (NestError.kernelException
        (locked_msg (guard_errors ⟨1, 1, true, false, false, false, 0⟩ ⟨false, 1⟩ 2))) ∧
    (set_status ⟨1, 1, true, false, false, false, 0⟩ ⟨false, 1⟩ ⟨some 2, none⟩).vm = ⟨false, 1⟩ ∧
    (set_status ⟨1, 1, true, false, false, false, 0⟩ ⟨false, 1⟩ ⟨some 2, none⟩).resized = false ∧
    ∀ r ∈ guard_errors ⟨1, 1, true, false, false, false, 0⟩ ⟨false, 1⟩ 2,
      r.data <:+:
        (locked_msg (guard_errors ⟨1, 1, true, false, false, false, 0⟩ ⟨false, 1⟩ 2)).data) :=
  ⟨by decide, by decide,
    vp_set_status_locked_all_reasons ⟨1, 1, true, false, false, false, 0⟩ ⟨false, 1⟩
      ⟨some 2, none⟩ (fun _ h => nomatch h) (by decide) (by decide)⟩

/-- C3: requesting a virtual-process count that is not a multiple of the
process count, or whose quotient by the process count differs from the
(possibly separately requested) thread count, fails with the `BadProperty`
(`IncompatibleConfiguration`) error, with no state change, no resize and no
log. -/
theorem vp_set_status_incompatible (k : KernelState) (vm : VPManager)
    (d : DictionaryDatum) (v : Nat)
    (hv : d.total_num_virtual_procs = some v)
    (hbad : v % k.num_processes ≠ 0 ∨ v / k.num_processes ≠ requested_threads k vm d) :
    set_status k vm d =
      { vm := vm, resized := false, logs := [],
        error := some (NestError.badProperty bad_property_msg) } := by
  unfold set_status
  have hrv : requested_vps k vm d = v := by simp [requested_vps, hv]
  rw [if_pos (by simp [hv]), if_pos (by rw [hrv]; exact hbad.symm)]

theorem vp_set_status_incompatible_witness :
    (⟨some 3, some 7⟩ : DictionaryDatum).total_num_virtual_procs = some 7 ∧
    ((7 : Nat) % 2 ≠ 0 ∨ (7 : Nat) / 2 ≠ 3) ∧
    set_status ⟨2, 0, false, false, false, false, 0⟩ ⟨false, 1⟩ ⟨some 3, some 7⟩ =
      { vm := ⟨false, 1⟩, resized := false, logs := [],
        error := some (NestError.badProperty bad_property_msg) } :=
  ⟨rfl, by decide,
    vp_set_status_incompatible ⟨2, 0, false, false, false, false, 0⟩ ⟨false, 1⟩
      ⟨some 3, some 7⟩ 7 rfl (by decide)⟩

/-- C4: a `set_status` call that requests only the current thread count
and/or the current virtual-process count is a silent no-op — state
unchanged, no resize requested, no log, no error — even in states where the
guards would fail for a genuine change (the guards are never evaluated). -/
theorem vp_set_status_idempotent (k : KernelState) (vm : VPManager)
    (d : DictionaryDatum)
    (hp : 1 ≤ k.num_processes)
    (ht : d.local_num_threads = none ∨ d.local_num_threads = some (get_num_threads vm))
    (hv : d.total_num_virtual_procs = none ∨
      d.total_num_virtual_procs = some (get_num_virtual_processes vm k)) :
    set_status k vm d = { vm := vm, resized := false, logs := [], error := none } := by
  have hrt : requested_threads k vm d = get_num_threads vm := by
    unfold requested_threads
    rcases ht with h | h <;> rw [h]
    rcases hv with h2 | h2 <;> rw [h2]
    exact Nat.mul_div_cancel _ hp
  have hrv : requested_vps k vm d = get_num_virtual_processes vm k := by
    rcases hv with h | h <;> simp [requested_vps, h]
  have hvalid : ∀ v, d.total_num_virtual_procs = some v →
      v % k.num_processes = 0 ∧ v / k.num_processes = requested_threads k vm d := by
    intro v hveq
    rcases hv with h | h
    · rw [h] at hveq; cases hveq
    · rw [h] at hveq
      injection hveq with hveq
      subst hveq
      refine ⟨Nat.mul_mod_left _ _, ?_⟩
      rw [hrt]
      exact Nat.mul_div_cancel _ hp
  rw [set_status_eq_tail k vm d hvalid, hrt, hrv, set_status_tail_noop]

theorem vp_set_status_idempotent_witness :
    (1 : Nat) ≤ 2 ∧
    ((⟨some 3, some 6⟩ : DictionaryDatum).local_num_threads = none ∨
      (⟨some 3, some 6⟩ : DictionaryDatum).local_num_threads = some 3) ∧
    ((⟨some 3, some 6⟩ : DictionaryDatum).total_num_virtual_procs = none ∨
      (⟨some 3, some 6⟩ : DictionaryDatum).total_num_virtual_procs = some 6) ∧
    guard_errors ⟨2, 5, false, false, false, false, 0⟩ ⟨false, 3⟩ 3 ≠ [] ∧
    set_status ⟨2, 5, false, false, false, false, 0⟩ ⟨false, 3⟩ ⟨some 3, some 6⟩ =
      { vm := ⟨false, 3⟩, resized := false, logs := [], error := none } :=
  ⟨by decide, by decide, by decide, by decide,
    vp_set_status_idempotent ⟨2, 5, false, false, false, false, 0⟩ ⟨false, 3⟩
      ⟨some 3, some 6⟩ (by decide) (by decide) (by decide)⟩

/-- C5: a call that requests a virtual-process count `v` and no thread count
derives the implied thread count as `v / process_count`; when the division is
exact and the guards pass for the derived value, the call succeeds and the
manager's thread count afterwards is `v / process_count`. -/
theorem vp_set_status_derived_threads (k : KernelState) (vm : VPManager) (v : Nat)
    (hdvd : v % k.num_processes = 0)
    (hguard : guard_errors k vm (v / k.num_processes) = []) :
    (set_status k vm ⟨none, some v⟩).error = none ∧
    (set_status k vm ⟨none, some v⟩).vm.n_threads = v / k.num_processes := by
  have hvalid : ∀ w, (⟨none, some v⟩ : DictionaryDatum).total_num_virtual_procs = some w →
      w % k.num_processes = 0 ∧
      w / k.num_processes = requested_threads k vm ⟨none, some v⟩ := by
    intro w hw
    injection hw with hw
    subst hw
    exact ⟨hdvd, rfl⟩
  have hrt : requested_threads k vm ⟨none, some v⟩ = v / k.num_processes := rfl
  have hrv : requested_vps k vm ⟨none, some v⟩ = v := rfl
  rw [set_status_eq_tail k vm _ hvalid, hrt, hrv]
  by_cases hd : v / k.num_processes ≠ get_num_threads vm ∨
      v ≠ get_num_virtual_processes vm k
  · rw [set_status_tail_commit k vm _ _ hd hguard]
    exact ⟨rfl, rfl⟩
  · push_neg at hd
    obtain ⟨h1, h2⟩ := hd
    rw [h1, h2, set_status_tail_noop]
    exact ⟨rfl, rfl⟩

theorem vp_set_status_derived_threads_witness :
    (8 : Nat) % 4 = 0 ∧
    guard_errors ⟨4, 0, false, false, false, false, 0⟩ ⟨false, 1⟩ 2 = [] ∧
    ((set_status ⟨4, 0, false, false, false, false, 0⟩ ⟨false, 1⟩ ⟨none, some 8⟩).error = none ∧
    (set_status ⟨4, 0, false, false, false, false, 0⟩ ⟨false, 1⟩ ⟨none, some 8⟩).vm.n_threads = 2) :=
  ⟨by decide, by decide,
    vp_set_status_derived_threads ⟨4, 0, false, false, false, false, 0⟩ ⟨false, 1⟩ 8
      (by decide) (by decide)⟩

/-- C6: when structural plasticity is enabled, the requested (or derived)
thread count exceeds 1 and the (valid) request differs from the current
configuration, the call fails with the `KernelException` (`KernelLocked`)
whose reason list contains the plasticity/multithreading conflict — whatever
all the other guards evaluate to. -/
theorem vp_set_status_plasticity_locked (k : KernelState) (vm : VPManager)
    (d : DictionaryDatum)
    (hsp : k.structural_plasticity_enabled = true)
    (hthreads : 1 < requested_threads k vm d)
    (hvalid : ∀ v, d.total_num_virtual_procs = some v →
      v % k.num_processes = 0 ∧ v / k.num_processes = requested_threads k vm d)
    (hdiff : requested_threads k vm d ≠ get_num_threads vm ∨
      requested_vps k vm d ≠ get_num_virtual_processes vm k) :
    ∃ msg, (set_status k vm d).error = some (NestError.kernelException msg) ∧
      sp_conflict_msg ∈ guard_errors k vm (requested_threads k vm d) ∧
      sp_conflict_msg.data <:+: msg.data := by
  have hmem := sp_conflict_mem_guard_errors k vm _ hsp hthreads
  have hne : guard_errors k vm (requested_threads k vm d) ≠ [] :=
    List.ne_nil_of_mem hmem
  refine ⟨locked_msg (guard_errors k vm (requested_threads k vm d)), ?_, hmem,
    mem_locked_msg _ _ hmem⟩
  rw [set_status_eq_tail k vm d hvalid, set_status_tail_locked k vm _ _ hdiff hne]

theorem vp_set_status_plasticity_locked_witness :
    (⟨1, 0, false, false, false, true, 0⟩ : KernelState).structural_plasticity_enabled = true ∧
    (1 : Nat) < 2 ∧
    ((2 : Nat) ≠ 1 ∨ (1 : Nat) ≠ 1) ∧
    (∃ msg, (set_status ⟨1, 0, false, false, false, true, 0⟩ ⟨false, 1⟩ ⟨some 2, none⟩).error =
        some (NestError.kernelException msg) ∧
      sp_conflict_msg ∈ guard_errors ⟨1, 0, false, false, false, true, 0⟩ ⟨false, 1⟩ 2 ∧
      sp_conflict_msg.data <:+: msg.data) :=
  ⟨rfl, by decide, by decide,
    vp_set_status_plasticity_locked ⟨1, 0, false, false, false, true, 0⟩ ⟨false, 1⟩
      ⟨some 2, none⟩ rfl (by decide) (fun _ h => nomatch h) (by decide)⟩

/-- C7 counterexample: in a pristine kernel (one process, no irreversible
state, no hint), requesting `local_num_threads = 0` succeeds — `set_status`
performs no positivity check — and leaves the manager's thread count at 0,
refuting the claim that no call can ever leave `thread_count` at 0. -/
theorem vp_thread_count_zero_counterexample :
    (set_status ⟨1, 0, false, false, false, false, 0⟩ ⟨false, 1⟩ ⟨some 0, none⟩).error = none ∧
    (set_status ⟨1, 0, false, false, false, false, 0⟩ ⟨false, 1⟩ ⟨some 0, none⟩).vm.n_threads = 0 := by
  decide

/-- C7 (amended): the manager's thread count stays positive across any
`set_status` call provided the thread count it starts from and the
requested/derived thread count are positive; the operation itself never
checks positivity. -/
theorem vp_thread_count_positive (k : KernelState) (vm : VPManager)
    (d : DictionaryDatum)
    (hvm : 1 ≤ vm.n_threads)
    (hreq : 1 ≤ requested_threads k vm d) :
    1 ≤ (set_status k vm d).vm.n_threads := by
  rcases set_status_vm_cases k vm d with h | h
  · rw [h]; exact hvm
  · rw [h]; exact hreq

theorem vp_thread_count_positive_witness :
    (1 : Nat) ≤ 1 ∧ (1 : Nat) ≤ 2 ∧
    1 ≤ (set_status ⟨1, 0, false, false, false, false, 0⟩ ⟨false, 1⟩ ⟨some 2, none⟩).vm.n_threads :=
  ⟨by decide, by decide,
    vp_thread_count_positive ⟨1, 0, false, false, false, false, 0⟩ ⟨false, 1⟩
      ⟨some 2, none⟩ (by decide) (by decide)⟩

/-- C8: the low-level commit asserts `not (plasticity ∧ n > 1)` and stores
`n`: (i) on the validated `set_status` path the assertion can never fire,
(ii) the initialization/reset call `set_num_threads 1` always succeeds and
stores 1, and (iii) whenever structural plasticity is disabled the commit
succeeds and stores `n`. -/
theorem vp_set_num_threads_assert_safe :
    (∀ (k : KernelState) (vm : VPManager) (d : DictionaryDatum),
      (set_status k vm d).error ≠ some NestError.assertionFailure) ∧
    (∀ (k : KernelState) (vm : VPManager),
      set_num_threads k vm 1 = some { vm with n_threads := 1 }) ∧
    (∀ (k : KernelState) (vm : VPManager) (n : Nat),
      k.structural_plasticity_enabled = false →
        set_num_threads k vm n = some { vm with n_threads := n }) :=
  ⟨set_status_no_assert, set_num_threads_one,
    fun _ _ _ h => by simp [set_num_threads, h]⟩

theorem vp_set_num_threads_assert_safe_witness :
    (set_status ⟨1, 0, false, false, false, true, 0⟩ ⟨false, 1⟩ ⟨some 2, none⟩).error ≠
      some NestError.assertionFailure ∧
    set_num_threads ⟨1, 0, false, false, false, true, 0⟩ ⟨false, 1⟩ 1 = some ⟨false, 1⟩ ∧
    (⟨1, 0, false, false, false, false, 0⟩ : KernelState).structural_plasticity_enabled = false ∧
    set_num_threads ⟨1, 0, false, false, false, false, 0⟩ ⟨false, 1⟩ 5 = some ⟨false, 5⟩ :=
  ⟨vp_set_num_threads_assert_safe.1 _ _ _,
    vp_set_num_threads_assert_safe.2.1 _ _,
    by decide,
    vp_set_num_threads_assert_safe.2.2 _ _ _ (by decide)⟩

/-- C9 counterexample: with the environment hint set to 1 (nonzero), a kernel
reset emits no log at all — `initialize` only logs when the hint exceeds 1 —
refuting "whenever the hint is nonzero, the manager emits a log message
during initialization". -/
theorem vp_omp_hint_counterexample :
    get_OMP_NUM_THREADS ⟨1, 0, false, false, false, false, 1⟩ ≠ 0 ∧
    (initializeManager true ⟨1, 0, false, false, false, false, 1⟩ ⟨false, 1⟩).2 = [] := by
  decide

/-- C9 (amended): initialization logs the ignore-note exactly when the hint
exceeds 1; reconfiguration logs it exactly on the successful-change path when
the hint is positive and differs from the new thread count; and the hint
never influences the stored/committed thread count, the resize request or
the raised error of either operation. -/
theorem vp_omp_hint_amended :
    (∀ (k : KernelState) (vm : VPManager),
      (initializeManager true k vm).2 =
        if 1 < get_OMP_NUM_THREADS k then [omp_ignored_msg] else []) ∧
    (∀ (k : KernelState) (vm : VPManager) (n_threads n_vps : Nat),
      (set_status_tail k vm n_threads n_vps).logs =
        if (n_threads ≠ get_num_threads vm ∨ n_vps ≠ get_num_virtual_processes vm k) ∧
            guard_errors k vm n_threads = [] then
          omp_warning_logs k n_threads
        else []) ∧
    (∀ (k : KernelState) (n : Nat),
      omp_warning_logs k n =
        if 0 < get_OMP_NUM_THREADS k ∧ get_OMP_NUM_THREADS k ≠ n then
          [omp_ignored_msg]
        else []) ∧
    (∀ (k : KernelState) (vm : VPManager) (d : DictionaryDatum) (x : Nat),
      outcome_core (set_status { k with omp_num_threads := x } vm d) =
        outcome_core (set_status k vm d) ∧
      (initializeManager true { k with omp_num_threads := x } vm).1 =
        (initializeManager true k vm).1) :=
  ⟨fun k vm => by rw [initializeManager_reset],
    set_status_tail_logs,
    fun _ _ => rfl,
    fun k vm d x =>
      ⟨set_status_hint_core k vm d x,
        by rw [initializeManager_reset, initializeManager_reset]⟩⟩

/-- C10: a call whose request carries no virtual-process count skips the
decomposition validation entirely — it is exactly the change-detection /
guard / commit tail at the requested thread count and the current
virtual-process count — and can never raise the `BadProperty`
(`IncompatibleConfiguration`) error, whatever thread count is requested. -/
theorem vp_set_status_no_vps_skips_validation (k : KernelState) (vm : VPManager)
    (d : DictionaryDatum)
    (h : d.total_num_virtual_procs = none) :
    set_status k vm d =
      set_status_tail k vm (requested_threads k vm d) (get_num_virtual_processes vm k) ∧
    ∀ msg, (set_status k vm d).error ≠ some (NestError.badProperty msg) := by
  have heq : set_status k vm d =
      set_status_tail k vm (requested_threads k vm d) (get_num_virtual_processes vm k) := by
    unfold set_status
    rw [if_neg (by simp [h])]
    simp [requested_vps, h]
  refine ⟨heq, fun msg => ?_⟩
  rw [heq]
  exact set_status_tail_no_bad k vm _ _ msg

theorem vp_set_status_no_vps_skips_validation_witness :
    (⟨some 7, none⟩ : DictionaryDatum).total_num_virtual_procs = none ∧
    (set_status ⟨2, 0, false, false, false, false, 0⟩ ⟨false, 1⟩ ⟨some 7, none⟩ =
      set_status_tail ⟨2, 0, false, false, false, false, 0⟩ ⟨false, 1⟩ 7 2 ∧
    ∀ msg, (set_status ⟨2, 0, false, false, false, false, 0⟩ ⟨false, 1⟩ ⟨some 7, none⟩).error ≠
      some (NestError.badProperty msg)) :=
  ⟨rfl,
    vp_set_status_no_vps_skips_validation ⟨2, 0, false, false, false, false, 0⟩ ⟨false, 1⟩
      ⟨some 7, none⟩ rfl⟩

end NestVP
